import Mathlib

/-!
Verification of the NFT airdrop ledger, cache-aside eligibility engine and
transfer orchestrator of the `plugin-starknet` package.

The development shallowly embeds:
* the request validator (`isNFTTransferContent`, `getTransferError` from
  `src/utils`),
* the ledger store (`NFTAirdropDatabase` over a SQLite table with a composite
  uniqueness constraint, `src/adapters/nftAirdrop.ts`),
* the eligibility engine (`NFTAirdropManager` with a 5-minute NodeCache,
  `src/providers/nftAirdropProvider.ts`),
* the SEND_NFT action handler (`src/actions/nftTransfer.ts`).

JavaScript exceptions are modelled by explicit fault flags placed exactly where
the source has a `try`/`catch`; `uuidv4()` and `Date.now()` are modelled as
explicit inputs; `Date.toLocaleString` is an abstract rendering function
parameter.  Times are abstract ticks, with the NodeCache `stdTTL: 300` kept as
the constant 300.
-/

set_option autoImplicit false

/-- JavaScript truthiness of an optional string field: `undefined`/`null`
(absent, here `none`) and the empty string are falsy. -/
def strFalsy : Option String → Bool
  | none => true
  | some s => s.isEmpty

/-- Address shape check used by both validators: `startsWith("0x")` and
`length === 66` (32-byte address with `0x` in front).  The prefix test is
embedded as a comparison of the first two characters, which is the same
predicate in a kernel-computable form. -/
def isValidAddress (s : String) : Bool :=
  s.data.take 2 == "0x".data && s.length == 66

/-- The structured object produced by the content extractor, as far as the
validator looks at it: a field is `some s` when it is present with string type
(`typeof === "string"`), `none` otherwise. -/
structure NFTContent where
  nftContractAddress : Option String
  recipient : Option String
deriving DecidableEq

/-- Embedding of `isNFTTransferContent` (src/utils): both fields present as strings and both
addresses well-formed. -/
def isNFTTransferContent : Option NFTContent → Bool
  | none => false
  | some c =>
    match c.nftContractAddress, c.recipient with
    | some a, some r => isValidAddress a && isValidAddress r
    | _, _ => false

/-- Embedding of `getTransferError` (src/utils): the ordered checklist of failure reasons,
returning the first failing one.  The `!field` tests of the source are the
truthiness tests `strFalsy`. -/
def getTransferError : Option NFTContent → String
  | none => "Error: Missing transfer details"
  | some c =>
    if strFalsy c.nftContractAddress then "Error: Contract address required"
    else if strFalsy c.recipient then "Error: Recipient address required"
    else if !isValidAddress (c.nftContractAddress.getD "") then
      "Error: Invalid contract address"
    else if !isValidAddress (c.recipient.getD "") then
      "Error: Invalid recipient address"
    else ""

/-- A row of the `nft_airdrops` table (interface `NFTAirdrop`).  The stored
`transaction_hash` column is nullable, hence `Option String`. -/
structure NFTAirdrop where
  id : String
  recipientAddress : String
  nftContractAddress : String
  tokenId : String
  transactionHash : Option String
  airdropTimestamp : Nat
  roomId : String
  agentId : String
deriving DecidableEq

/-- The ledger store state: the rows of the `nft_airdrops` table. -/
structure DBState where
  rows : List NFTAirdrop
deriving DecidableEq

/-- The type `Omit<NFTAirdrop, "id" | "airdropTimestamp">`: what a caller passes to
`recordAirdrop`; `id` and the timestamp are generated at write time. -/
structure AirdropParams where
  recipientAddress : String
  nftContractAddress : String
  tokenId : String
  transactionHash : Option String
  roomId : String
  agentId : String
deriving DecidableEq

/-- The composite uniqueness constraint
`UNIQUE(recipient_address, nft_contract_address, token_id)` matched against an
insert attempt. -/
def tripleMatches (r : NFTAirdrop) (p : AirdropParams) : Bool :=
  r.recipientAddress == p.recipientAddress &&
  r.nftContractAddress == p.nftContractAddress &&
  r.tokenId == p.tokenId

/-- The value bound to the `transaction_hash` column:
`airdrop.transactionHash || null` maps an absent or empty hash to NULL. -/
def normHash : Option String → Option String
  | none => none
  | some h => if h.isEmpty then none else some h

/-- Embedding of `NFTAirdropDatabase.hasReceivedAirdrop`: `SELECT COUNT(*) ... WHERE
recipient_address = ?`, with any thrown storage error (`fault`) caught and
degraded to `false`. -/
def NFTAirdropDatabase.hasReceivedAirdrop (fault : Bool) (db : DBState)
    (address : String) : Bool :=
  if fault then false
  else db.rows.any (fun r => r.recipientAddress == address)

/-- The row an insert attempt binds: fields from the caller, plus the
generated `id` (`uuidv4()`) and timestamp (`Date.now()`). -/
def insertedRow (id : String) (ts : Nat) (p : AirdropParams) : NFTAirdrop :=
  { id := id
    recipientAddress := p.recipientAddress
    nftContractAddress := p.nftContractAddress
    tokenId := p.tokenId
    transactionHash := normHash p.transactionHash
    airdropTimestamp := ts
    roomId := p.roomId
    agentId := p.agentId }

/-- Embedding of `NFTAirdropDatabase.recordAirdrop`: a single constrained INSERT.  `id` is
the freshly generated `uuidv4()` and `ts` the `Date.now()` of the call, both
explicit inputs.  The insert throws — and the `catch` returns `false` with the
table unchanged — when a storage fault is injected, when the `id` PRIMARY KEY
is violated, or when the composite uniqueness constraint on
(recipient, contract, token id) is violated. -/
def NFTAirdropDatabase.recordAirdrop (fault : Bool) (id : String) (ts : Nat)
    (db : DBState) (p : AirdropParams) : Bool × DBState :=
  if fault || db.rows.any (fun r => r.id == id) ||
      db.rows.any (fun r => tripleMatches r p) then
    (false, db)
  else
    (true, ⟨insertedRow id ts p :: db.rows⟩)

/-- Optional filters of `getAirdropHistory`; `limit` is a number whose falsy
value 0 disables the LIMIT clause, like an absent limit. -/
structure HistoryParams where
  roomId : Option String
  agentId : Option String
  recipientAddress : Option String
  limit : Option Nat
deriving DecidableEq

/-- An `AND column = ?` clause added only when the filter value is truthy. -/
def optFilter (o : Option String) (v : String) : Bool :=
  match o with
  | none => true
  | some s => if s.isEmpty then true else s == v

/-- Insert a row into a list kept sorted by `airdrop_timestamp DESC`. -/
def insertByTsDesc (a : NFTAirdrop) : List NFTAirdrop → List NFTAirdrop
  | [] => [a]
  | b :: rest =>
    if b.airdropTimestamp ≤ a.airdropTimestamp then a :: b :: rest
    else b :: insertByTsDesc a rest

/-- The clause `ORDER BY airdrop_timestamp DESC`. -/
def sortByTsDesc : List NFTAirdrop → List NFTAirdrop
  | [] => []
  | a :: rest => insertByTsDesc a (sortByTsDesc rest)

/-- Embedding of `NFTAirdropDatabase.getAirdropHistory`: filtered, ordered newest-first,
optionally limited; any thrown error is caught and degraded to `[]`.  A
`limit` of 0 is falsy in the source, so no LIMIT clause is added. -/
def NFTAirdropDatabase.getAirdropHistory (fault : Bool) (db : DBState)
    (params : HistoryParams) : List NFTAirdrop :=
  if fault then []
  else
    let filtered := db.rows.filter (fun r =>
      optFilter params.roomId r.roomId &&
      optFilter params.agentId r.agentId &&
      optFilter params.recipientAddress r.recipientAddress)
    let sorted := sortByTsDesc filtered
    match params.limit with
    | none => sorted
    | some 0 => sorted
    | some n => sorted.take n

/-- One entry of a NodeCache: the stored value and the absolute tick at which
it expires. -/
structure CacheEntry (α : Type) where
  value : α
  expiry : Nat
deriving DecidableEq

/-- The NodeCache TTL: `stdTTL: 300` (5 minutes, in seconds). -/
def cacheTTL : Nat := 300

/-- Reading `cache.get(key)` at time `now`: the stored value while it has not
expired, `undefined` (`none`) otherwise. -/
def cacheGet {α : Type} (cache : List (String × CacheEntry α)) (now : Nat)
    (key : String) : Option α :=
  match cache.find? (fun e => e.fst == key) with
  | some (_, e) => if now < e.expiry then some e.value else none
  | none => none

/-- Writing `cache.set(key, v)` at time `now`: overwrite the entry for `key` with
value `v` expiring at `now + cacheTTL`. -/
def cacheSet {α : Type} (cache : List (String × CacheEntry α)) (now : Nat)
    (key : String) (v : α) : List (String × CacheEntry α) :=
  (key, ⟨v, now + cacheTTL⟩) :: cache.filter (fun e => !(e.fst == key))

/-- The state of an `NFTAirdropManager` instance: the shared ledger store and
the instance-private NodeCache, split by key namespace into the
`airdrop-status:` entries and the `airdrop-history:` entries. -/
structure ManagerState where
  db : DBState
  statusCache : List (String × CacheEntry Bool)
  historyCache : List (String × CacheEntry (List NFTAirdrop))
deriving DecidableEq

/-- A manager over a given ledger with an empty cache, as built by
`new NFTAirdropManager(db)`. -/
def freshManager (db : DBState) : ManagerState :=
  ⟨db, [], []⟩

/-- Embedding of `NFTAirdropManager.recordAirdrop`: delegates to the store insert and
returns its boolean.  The cache is not touched. -/
def NFTAirdropManager.recordAirdrop (fault : Bool) (id : String) (ts : Nat)
    (s : ManagerState) (p : AirdropParams) : Bool × ManagerState :=
  let r := NFTAirdropDatabase.recordAirdrop fault id ts s.db p
  (r.fst, { s with db := r.snd })

/-- Embedding of `NFTAirdropManager.hasReceivedAirdrop`: cache-aside read.  On a hit the
cached boolean is returned; on a miss the store is consulted (the store read
itself degrades to `false` on a `readFault`) and the result — negative results
included — is cached for `cacheTTL`. -/
def NFTAirdropManager.hasReceivedAirdrop (readFault : Bool) (s : ManagerState)
    (now : Nat) (address : String) : Bool × ManagerState :=
  match cacheGet s.statusCache now ("airdrop-status:" ++ address) with
  | some v => (v, s)
  | none =>
    (NFTAirdropDatabase.hasReceivedAirdrop readFault s.db address,
      { s with statusCache :=
          (cacheSet s.statusCache now ("airdrop-status:" ++ address)
            (NFTAirdropDatabase.hasReceivedAirdrop readFault s.db address)) })

/-- Embedding of `NFTAirdropManager.getAirdropHistory`: cache-aside read of the history
page for a recipient (the cached array is truthy even when empty, so any
stored entry is a hit). -/
def NFTAirdropManager.getAirdropHistory (histFault : Bool) (s : ManagerState)
    (now : Nat) (recipientAddress : String) (limit : Option Nat) :
    List NFTAirdrop × ManagerState :=
  match cacheGet s.historyCache now ("airdrop-history:" ++ recipientAddress) with
  | some v => (v, s)
  | none =>
    (NFTAirdropDatabase.getAirdropHistory histFault s.db
        ⟨none, none, some recipientAddress, limit⟩,
      { s with historyCache :=
          (cacheSet s.historyCache now ("airdrop-history:" ++ recipientAddress)
            (NFTAirdropDatabase.getAirdropHistory histFault s.db
              ⟨none, none, some recipientAddress, limit⟩)) })

/-- JavaScript template interpolation of the nullable stored hash:
`${airdrop.transactionHash}` renders an absent hash as "undefined". -/
def optHashText : Option String → String
  | some h => h
  | none => "undefined"

/-- Embedding of `NFTAirdropManager.formatAirdropStatus`: renders the airdrop status of an
address.  `renderDate` stands for `new Date(ts).toLocaleString()`; `fmtFault`
models any error thrown inside the surrounding `try`, which the `catch`
converts into the generic failure message. -/
def NFTAirdropManager.formatAirdropStatus (renderDate : Nat → String)
    (fmtFault readFault histFault : Bool) (s : ManagerState) (now : Nat)
    (address : String) : String × ManagerState :=
  if fmtFault then
    ("Failed to fetch airdrop status for address " ++ address ++ ".", s)
  else
    match NFTAirdropManager.hasReceivedAirdrop readFault s now address with
    | (false, s1) =>
      ("Address " ++ address ++ " has not received an NFT airdrop yet.", s1)
    | (true, s1) =>
      match NFTAirdropManager.getAirdropHistory histFault s1 now address (some 1) with
      | (airdrop :: _, s2) =>
        ("Address " ++ address ++ " has already received an NFT (" ++
          airdrop.tokenId ++ ") on " ++ renderDate airdrop.airdropTimestamp ++
          ".\nTransaction hash: " ++ optHashText airdrop.transactionHash, s2)
      | ([], s2) =>
        ("Address " ++ address ++ " has already received an NFT.", s2)

/-- The payload of `ERC721Token.transferCall`, keeping the arguments rather
than the encoded calldata: contract address, `transferFrom` entry point, and
the (from, to, tokenId) triple. -/
structure TransferCall where
  contractAddress : String
  fromAddress : String
  toAddress : String
  tokenId : Nat
deriving DecidableEq

/-- The payload handed to the handler callback: the `text` field and the
optional `content.error` field. -/
structure CallbackPayload where
  text : String
  error : Option String
deriving DecidableEq

/-- Everything observable about one run of the SEND_NFT handler: its boolean
return, the callback payload, the final ledger state, the transfer call passed
to `account.execute` (if any), and the error log lines it emitted. -/
structure HandlerResult where
  ok : Bool
  response : Option CallbackPayload
  db : DBState
  submitted : Option TransferCall
  logs : List String
deriving DecidableEq

/-- The external collaborators and nondeterminism of one handler run:
the clock, the distributing account address, the outcome of
`tokenOfOwnerByIndex` (the selected token id, or a thrown error), the outcome
of `account.execute` (a transaction hash, or a thrown error), the injected
storage faults, the generated record id, the date renderer and the message
context keys. -/
structure HandlerEnv where
  now : Nat
  accountAddress : String
  selection : Except String Nat
  execOut : Except String String
  readFault : Bool
  histFault : Bool
  fmtFault : Bool
  recFault : Bool
  recId : String
  renderDate : Nat → String
  roomId : String
  agentId : String

/-- The SEND_NFT action handler (`src/actions/nftTransfer.ts`), from content
validation on: reject invalid content with `getTransferError`; check
eligibility through a freshly constructed manager (empty cache) over the
shared ledger; if already served, reply with the formatted status and an error
field; otherwise select the index-0 token, log when it is zero but proceed,
build and submit the transfer call, record the airdrop — discarding the
boolean result of the insert — and report success with the transaction hash.
Any error thrown during selection or submission is caught and reported as
`Error transferring NFT: ...`. -/
def sendNftHandler (db0 : DBState) (content : Option NFTContent)
    (env : HandlerEnv) : HandlerResult :=
  match content, isNFTTransferContent content with
  | some ⟨some contractAddr, some recipient⟩, true =>
    match NFTAirdropManager.hasReceivedAirdrop env.readFault (freshManager db0)
        env.now recipient with
    | (true, s1) =>
      match NFTAirdropManager.formatAirdropStatus env.renderDate env.fmtFault
          env.readFault env.histFault s1 env.now recipient with
      | (status, s2) =>
        { ok := false
          response := some ⟨status, some "Recipient already received NFT"⟩
          db := s2.db
          submitted := none
          logs := [] }
    | (false, s1) =>
      match env.selection with
      | .error e =>
        { ok := false
          response := some ⟨"Error transferring NFT: " ++ e, some e⟩
          db := s1.db
          submitted := none
          logs := ["Error during NFT transfer:"] }
      | .ok nftId =>
        match env.execOut with
        | .error e =>
          { ok := false
            response := some ⟨"Error transferring NFT: " ++ e, some e⟩
            db := s1.db
            submitted := some ⟨contractAddr, env.accountAddress, recipient, nftId⟩
            logs := (if nftId == 0 then ["No NFTs found in the account"] else [])
              ++ ["Error during NFT transfer:"] }
        | .ok txHash =>
          match NFTAirdropManager.recordAirdrop env.recFault env.recId
              env.now s1
              { recipientAddress := recipient
                nftContractAddress := contractAddr
                tokenId := toString nftId
                transactionHash := some txHash
                roomId := env.roomId
                agentId := env.agentId } with
          | (_, s2) =>
            { ok := true
              response := some
                ⟨"NFT transfer completed successfully! tx: " ++ txHash, none⟩
              db := s2.db
              submitted := some ⟨contractAddr, env.accountAddress, recipient, nftId⟩
              logs := if nftId == 0 then ["No NFTs found in the account"] else [] }
  | _, _ =>
    { ok := false
      response := some ⟨getTransferError content, some (getTransferError content)⟩
      db := db0
      submitted := none
      logs := ["Invalid content for SEND_NFT action:"] }

/-- One `recordAirdrop` call in a sequence: its injected storage fault, the
`uuidv4()` generated for it and its `Date.now()`. -/
structure RecordCall where
  fault : Bool
  id : String
  ts : Nat
deriving DecidableEq

/-- A sequence of `NFTAirdropDatabase.recordAirdrop` calls with one fixed
parameter triple, folding the store state through; returns the list of
booleans the calls returned and the final store. -/
def recordRun (p : AirdropParams) : DBState → List RecordCall →
    List Bool × DBState
  | db, [] => ([], db)
  | db, c :: rest =>
    let r := NFTAirdropDatabase.recordAirdrop c.fault c.id c.ts db p
    let rs := recordRun p r.snd rest
    (r.fst :: rs.fst, rs.snd)

/-! ## Helper lemmas -/

theorem tripleMatches_insertedRow (id : String) (ts : Nat) (p : AirdropParams) :
    tripleMatches (insertedRow id ts p) p = true := by
  simp [tripleMatches, insertedRow]

/-- Once a row matching the triple is present, every further insert attempt for
that triple fails and leaves the store unchanged. -/
theorem recordRun_all_false (p : AirdropParams) (calls : List RecordCall) :
    ∀ db : DBState, db.rows.any (fun r => tripleMatches r p) = true →
    recordRun p db calls = (List.replicate calls.length false, db) := by
  induction calls with
  | nil => intro db _; rfl
  | cons c rest ih =>
    intro db h
    simp [recordRun, NFTAirdropDatabase.recordAirdrop, h, ih db h,
      List.replicate]

/-- A read never changes the store component of the manager state. -/
theorem hasReceivedAirdrop_db_eq (f : Bool) (s : ManagerState) (now : Nat)
    (a : String) :
    ((NFTAirdropManager.hasReceivedAirdrop f s now a).snd).db = s.db := by
  unfold NFTAirdropManager.hasReceivedAirdrop
  cases cacheGet s.statusCache now ("airdrop-status:" ++ a) <;> rfl

/-- A history read never changes the store component of the manager state. -/
theorem getAirdropHistory_db_eq (f : Bool) (s : ManagerState) (now : Nat)
    (a : String) (limit : Option Nat) :
    ((NFTAirdropManager.getAirdropHistory f s now a limit).snd).db = s.db := by
  unfold NFTAirdropManager.getAirdropHistory
  cases cacheGet s.historyCache now ("airdrop-history:" ++ a) <;> rfl

/-- Formatting the status never changes the store component. -/
theorem formatAirdropStatus_db_eq (renderDate : Nat → String)
    (fmtFault readFault histFault : Bool) (s : ManagerState) (now : Nat)
    (a : String) :
    ((NFTAirdropManager.formatAirdropStatus renderDate fmtFault readFault
      histFault s now a).snd).db = s.db := by
  rcases hr : NFTAirdropManager.hasReceivedAirdrop readFault s now a with ⟨b, s1⟩
  have h1 : s1.db = s.db := by
    rw [← hasReceivedAirdrop_db_eq readFault s now a, hr]
  rcases hh : NFTAirdropManager.getAirdropHistory histFault s1 now a (some 1)
    with ⟨l, s2⟩
  have h2 : s2.db = s1.db := by
    rw [← getAirdropHistory_db_eq histFault s1 now a (some 1), hh]
  cases fmtFault
  · cases b
    · simp [NFTAirdropManager.formatAirdropStatus, hr, h1]
    · cases l <;> simp [NFTAirdropManager.formatAirdropStatus, hr, hh, h1, h2]
  · simp [NFTAirdropManager.formatAirdropStatus]

/-- A successful manager-level record prepends the inserted row to the ledger
and leaves the caches untouched. -/
theorem managerRecord_success (id : String) (ts : Nat) (s : ManagerState)
    (p : AirdropParams)
    (h : (NFTAirdropManager.recordAirdrop false id ts s p).fst = true) :
    (NFTAirdropManager.recordAirdrop false id ts s p).snd =
      { s with db := ⟨insertedRow id ts p :: s.db.rows⟩ } := by
  by_cases hc : (s.db.rows.any (fun r => r.id == id) ||
      s.db.rows.any (fun r => tripleMatches r p)) = true
  · simp [NFTAirdropManager.recordAirdrop, NFTAirdropDatabase.recordAirdrop,
      hc] at h
  · simp [NFTAirdropManager.recordAirdrop, NFTAirdropDatabase.recordAirdrop,
      hc] at h ⊢

/-! ## Claims -/

/-- C1: for every sequence of `recordAirdrop` calls with one identical
(recipient, contract, token id) triple — fault-free, with fresh generated ids,
against a store not yet holding the triple — exactly one call returns `true`
and the remaining ones return `false`; no call throws (the embedding is a
total function returning a boolean). -/
theorem recordDistribution_exactly_once (p : AirdropParams) (db : DBState)
    (calls : List RecordCall)
    (hne : calls ≠ [])
    (hfault : ∀ c ∈ calls, c.fault = false)
    (hids : ∀ c ∈ calls, db.rows.any (fun r => r.id == c.id) = false)
    (htriple : db.rows.any (fun r => tripleMatches r p) = false) :
    (recordRun p db calls).fst.count true = 1 := by
  obtain ⟨c, rest, rfl⟩ : ∃ c rest, calls = c :: rest := by
    cases calls with
    | nil => exact absurd rfl hne
    | cons c rest => exact ⟨c, rest, rfl⟩
  have hf : c.fault = false := hfault c (by simp)
  have hi : db.rows.any (fun r => r.id == c.id) = false := hids c (by simp)
  have hrest := recordRun_all_false p rest
    (⟨insertedRow c.id c.ts p :: db.rows⟩ : DBState)
    (by simp [tripleMatches_insertedRow])
  simp [recordRun, NFTAirdropDatabase.recordAirdrop, hf, hi, htriple, hrest,
    List.count_replicate]

/-- C1 witness: three fault-free calls with the same triple against an empty
store return exactly one `true`. -/
theorem recordDistribution_exactly_once_witness :
    (recordRun ⟨"0xA", "0xC", "1", some "0xT", "r", "a"⟩ ⟨[]⟩
      [⟨false, "i1", 1⟩, ⟨false, "i2", 2⟩, ⟨false, "i3", 3⟩]).fst.count true
      = 1 :=
  recordDistribution_exactly_once ⟨"0xA", "0xC", "1", some "0xT", "r", "a"⟩
    ⟨[]⟩ [⟨false, "i1", 1⟩, ⟨false, "i2", 2⟩, ⟨false, "i3", 3⟩]
    (by decide) (by decide) (by decide) (by decide)

/-- C7: `getTransferError` returns exactly the first failing reason of the
ordered checklist: missing object, then missing (falsy) contract address —
regardless of the recipient field — then missing recipient, then malformed
contract address — regardless of the recipient being malformed — then
malformed recipient. -/
theorem getTransferError_first_reason :
    (getTransferError none = "Error: Missing transfer details") ∧
    (∀ c : NFTContent, strFalsy c.nftContractAddress = true →
      getTransferError (some c) = "Error: Contract address required") ∧
    (∀ c : NFTContent, strFalsy c.nftContractAddress = false →
      strFalsy c.recipient = true →
      getTransferError (some c) = "Error: Recipient address required") ∧
    (∀ c : NFTContent, strFalsy c.nftContractAddress = false →
      strFalsy c.recipient = false →
      isValidAddress (c.nftContractAddress.getD "") = false →
      getTransferError (some c) = "Error: Invalid contract address") ∧
    (∀ c : NFTContent, strFalsy c.nftContractAddress = false →
      strFalsy c.recipient = false →
      isValidAddress (c.nftContractAddress.getD "") = true →
      isValidAddress (c.recipient.getD "") = false →
      getTransferError (some c) = "Error: Invalid recipient address") := by
  refine ⟨rfl, ?_, ?_, ?_, ?_⟩ <;> intro c <;> intros <;>
    simp [getTransferError, *]

/-- C7 witness: a request object missing both addresses gets the
contract-address-required reason, not the recipient reason. -/
theorem getTransferError_first_reason_witness :
    getTransferError (some ⟨none, none⟩) = "Error: Contract address required" :=
  getTransferError_first_reason.2.1 ⟨none, none⟩ rfl

/-- C8: `hasReceivedAirdrop` never throws to its caller: a store read error is
caught and the call degrades to `false` ("not served"), both at the store
level and — on a cache miss, when the store is actually consulted — at the
manager level. -/
theorem hasServed_read_error_degrades_to_false :
    (∀ (db : DBState) (address : String),
      NFTAirdropDatabase.hasReceivedAirdrop true db address = false) ∧
    (∀ (s : ManagerState) (now : Nat) (address : String),
      cacheGet s.statusCache now ("airdrop-status:" ++ address) = none →
      (NFTAirdropManager.hasReceivedAirdrop true s now address).fst = false) := by
  constructor
  · intro db address
    rfl
  · intro s now address hmiss
    simp [NFTAirdropManager.hasReceivedAirdrop, hmiss,
      NFTAirdropDatabase.hasReceivedAirdrop]

/-- C8 witness: with a faulting store and a cold cache, a manager holding a
record for the queried address still answers `false`. -/
theorem hasServed_read_error_degrades_to_false_witness :
    (NFTAirdropManager.hasReceivedAirdrop true
      (freshManager ⟨[⟨"i1", "0xA", "0xC", "1", some "0xT", 1, "r", "a"⟩]⟩)
      0 "0xA").fst = false :=
  hasServed_read_error_degrades_to_false.2
    (freshManager ⟨[⟨"i1", "0xA", "0xC", "1", some "0xT", 1, "r", "a"⟩]⟩)
    0 "0xA" rfl

/-- C2 counterexample: `NFTAirdropManager.recordAirdrop` never touches the
cache, so with a live negative cache entry for recipient "0xA" a successful
record is followed by `hasReceivedAirdrop` answering `false`, not `true` as
the claim states. -/
theorem recordAirdrop_stale_negative_cache :
    (NFTAirdropManager.recordAirdrop false "i1" 5
      ⟨⟨[]⟩, [("airdrop-status:0xA", ⟨false, 1000⟩)], []⟩
      ⟨"0xA", "0xC", "1", some "0xT", "r", "a"⟩).fst = true ∧
    (NFTAirdropManager.hasReceivedAirdrop false
      (NFTAirdropManager.recordAirdrop false "i1" 5
        ⟨⟨[]⟩, [("airdrop-status:0xA", ⟨false, 1000⟩)], []⟩
        ⟨"0xA", "0xC", "1", some "0xT", "r", "a"⟩).snd
      10 "0xA").fst = false :=
  ⟨rfl, rfl⟩

/-- C2 (amended): after a successful `recordAirdrop`, a subsequent
`hasReceivedAirdrop` for that recipient on the same manager returns `true`
provided the status cache holds no live entry for that recipient at the time
of the check; a live negative entry is NOT invalidated by the write and is
returned unchanged until it expires. -/
theorem recordAirdrop_then_check_true (s : ManagerState) (p : AirdropParams)
    (id : String) (ts now : Nat)
    (hrec : (NFTAirdropManager.recordAirdrop false id ts s p).fst = true)
    (hmiss : cacheGet s.statusCache now
      ("airdrop-status:" ++ p.recipientAddress) = none) :
    (NFTAirdropManager.hasReceivedAirdrop false
      (NFTAirdropManager.recordAirdrop false id ts s p).snd
      now p.recipientAddress).fst = true := by
  rw [managerRecord_success id ts s p hrec]
  simp [NFTAirdropManager.hasReceivedAirdrop, hmiss,
    NFTAirdropDatabase.hasReceivedAirdrop, insertedRow]

/-- C2 witness: on a manager with an empty cache, a successful record makes
the next eligibility check answer `true`. -/
theorem recordAirdrop_then_check_true_witness :
    (NFTAirdropManager.hasReceivedAirdrop false
      (NFTAirdropManager.recordAirdrop false "i1" 5 (freshManager ⟨[]⟩)
        ⟨"0xA", "0xC", "1", some "0xT", "r", "a"⟩).snd
      10 "0xA").fst = true :=
  recordAirdrop_then_check_true (freshManager ⟨[]⟩)
    ⟨"0xA", "0xC", "1", some "0xT", "r", "a"⟩ "i1" 5 10 rfl rfl

/-- C10: if the store read fails during a cache-miss eligibility check, the
degraded `false` is itself cached, and every later check for that address on
the same manager within the TTL returns `false` from the cache alone — for any
store contents (`db2`) and any store health (`f2`), so also when the store
holds a record for the address or has recovered. -/
theorem storeReadError_caches_negative (s : ManagerState) (now : Nat)
    (address : String)
    (hmiss : cacheGet s.statusCache now ("airdrop-status:" ++ address) = none) :
    (NFTAirdropManager.hasReceivedAirdrop true s now address).fst = false ∧
    (∀ (t : Nat) (f2 : Bool) (db2 : DBState), t < now + cacheTTL →
      (NFTAirdropManager.hasReceivedAirdrop f2
        { (NFTAirdropManager.hasReceivedAirdrop true s now address).snd
            with db := db2 }
        t address).fst = false) := by
  constructor
  · simp [NFTAirdropManager.hasReceivedAirdrop, hmiss,
      NFTAirdropDatabase.hasReceivedAirdrop]
  · intro t f2 db2 ht
    have h1 : (NFTAirdropManager.hasReceivedAirdrop true s now address).snd =
        { s with statusCache :=
            (cacheSet s.statusCache now ("airdrop-status:" ++ address) false) } := by
      simp [NFTAirdropManager.hasReceivedAirdrop, hmiss,
        NFTAirdropDatabase.hasReceivedAirdrop]
    rw [h1]
    simp [NFTAirdropManager.hasReceivedAirdrop, cacheGet, cacheSet, ht]

/-- C9: `formatAirdropStatus` is total (never throws) and renders: for a
recipient whose single stored record is visible through a fresh manager, a
message carrying the exact stored token id, the exact stored transaction hash
and the date rendering of the stored timestamp; for a never-served recipient a
distinct not-yet-served message; and, when an internal error is thrown
(`fmtFault`), a generic failure message. -/
theorem formatAirdropStatus_renders (renderDate : Nat → String) :
    (∀ (db : DBState) (now : Nat) (address : String) (row : NFTAirdrop)
      (h : String),
      db.rows = [row] → row.recipientAddress = address →
      row.transactionHash = some h →
      (NFTAirdropManager.formatAirdropStatus renderDate false false false
        (freshManager db) now address).fst =
      "Address " ++ address ++ " has already received an NFT (" ++
        row.tokenId ++ ") on " ++ renderDate row.airdropTimestamp ++
        ".\nTransaction hash: " ++ h) ∧
    (∀ (s : ManagerState) (now : Nat) (address : String),
      cacheGet s.statusCache now ("airdrop-status:" ++ address) = none →
      s.db.rows.any (fun r => r.recipientAddress == address) = false →
      (NFTAirdropManager.formatAirdropStatus renderDate false false false
        s now address).fst =
      "Address " ++ address ++ " has not received an NFT airdrop yet.") ∧
    (∀ (readF histF : Bool) (s : ManagerState) (now : Nat) (address : String),
      (NFTAirdropManager.formatAirdropStatus renderDate true readF histF
        s now address).fst =
      "Failed to fetch airdrop status for address " ++ address ++ ".") := by
  refine ⟨?_, ?_, ?_⟩
  · intro db now address row h hrows haddr hhash
    subst haddr
    simp [NFTAirdropManager.formatAirdropStatus,
      NFTAirdropManager.hasReceivedAirdrop, NFTAirdropManager.getAirdropHistory,
      NFTAirdropDatabase.hasReceivedAirdrop, NFTAirdropDatabase.getAirdropHistory,
      cacheGet, cacheSet, freshManager, hrows, optFilter, sortByTsDesc,
      insertByTsDesc, optHashText, hhash]
  · intro s now address hmiss hnone
    simp [NFTAirdropManager.formatAirdropStatus,
      NFTAirdropManager.hasReceivedAirdrop,
      NFTAirdropDatabase.hasReceivedAirdrop, hmiss, hnone]
  · intro readF histF s now address
    rfl

/-- C9 witness: a concrete stored record is rendered with its token id,
transaction hash and timestamp rendering. -/
theorem formatAirdropStatus_renders_witness :
    (NFTAirdropManager.formatAirdropStatus (fun n => toString n) false false
      false
      (freshManager ⟨[⟨"i1", "0xA", "0xC", "7", some "0xT", 123, "r", "a"⟩]⟩)
      0 "0xA").fst =
    "Address " ++ "0xA" ++ " has already received an NFT (" ++ "7" ++
      ") on " ++ (fun n : Nat => toString n) 123 ++
      ".\nTransaction hash: " ++ "0xT" :=
  (formatAirdropStatus_renders (fun n => toString n)).1
    ⟨[⟨"i1", "0xA", "0xC", "7", some "0xT", 123, "r", "a"⟩]⟩ 0 "0xA"
    ⟨"i1", "0xA", "0xC", "7", some "0xT", 123, "r", "a"⟩ "0xT" rfl rfl rfl

/-- A well-formed 32-byte contract address used as concrete input. -/
def addrA : String :=
  "0xaaaaaaaaaaaaaaaaaaaaaaaaaaaaaaaaaaaaaaaaaaaaaaaaaaaaaaaaaaaaaaaa"

/-- A well-formed 32-byte recipient address used as concrete input. -/
def addrB : String :=
  "0xbbbbbbbbbbbbbbbbbbbbbbbbbbbbbbbbbbbbbbbbbbbbbbbbbbbbbbbbbbbbbbbb"

/-- A handler environment where selection and submission succeed
(token id 5, transaction hash "0xTX1") but the ledger insert throws a storage
error (`recFault`). -/
def envRecFail : HandlerEnv :=
  ⟨7, addrA, .ok 5, .ok "0xTX1", false, false, false, true, "rid",
    (fun n => toString n), "room", "agent"⟩

/-- C3: the handler discards the boolean returned by `recordAirdrop`.  At a
concrete input where the on-chain submission succeeds and the ledger write
then fails, the handler still returns `true`, reports the plain success text
with no error field, and leaves the ledger without the record — no
RecordCommitError-class outcome is surfaced. -/
theorem handler_ignores_failed_ledger_write :
    (sendNftHandler ⟨[]⟩ (some ⟨some addrA, some addrB⟩) envRecFail).ok
      = true ∧
    (sendNftHandler ⟨[]⟩ (some ⟨some addrA, some addrB⟩) envRecFail).response
      = some ⟨"NFT transfer completed successfully! tx: 0xTX1", none⟩ ∧
    (sendNftHandler ⟨[]⟩ (some ⟨some addrA, some addrB⟩) envRecFail).db.rows
      = [] :=
  ⟨by decide, by decide, by decide⟩

/-- C4: when the eligibility check reports the recipient as already served,
the handler returns `false`, submits nothing, writes nothing to the ledger,
and replies with the formatted status text plus the
"Recipient already received NFT" error field; the outcome does not depend on
the asset-selection or submission collaborators at all. -/
theorem handler_already_served_frame (db : DBState)
    (contractAddr recipient : String) (env : HandlerEnv)
    (h1 : isValidAddress contractAddr = true)
    (h2 : isValidAddress recipient = true)
    (hread : env.readFault = false)
    (hserved : db.rows.any (fun r => r.recipientAddress == recipient) = true) :
    (sendNftHandler db (some ⟨some contractAddr, some recipient⟩) env).ok
      = false ∧
    (sendNftHandler db (some ⟨some contractAddr, some recipient⟩) env).submitted
      = none ∧
    (sendNftHandler db (some ⟨some contractAddr, some recipient⟩) env).db = db ∧
    (sendNftHandler db (some ⟨some contractAddr, some recipient⟩) env).response
      = some ⟨(NFTAirdropManager.formatAirdropStatus env.renderDate env.fmtFault
          env.readFault env.histFault
          (NFTAirdropManager.hasReceivedAirdrop env.readFault (freshManager db)
            env.now recipient).snd env.now recipient).fst,
          some "Recipient already received NFT"⟩ ∧
    (∀ (sel : Except String Nat) (ex : Except String String),
      sendNftHandler db (some ⟨some contractAddr, some recipient⟩)
        { env with selection := sel, execOut := ex } =
      sendNftHandler db (some ⟨some contractAddr, some recipient⟩) env) := by
  have hc : isNFTTransferContent (some ⟨some contractAddr, some recipient⟩)
      = true := by
    simp [isNFTTransferContent, h1, h2]
  have hfst : (NFTAirdropManager.hasReceivedAirdrop env.readFault
      (freshManager db) env.now recipient).fst = true := by
    simp [NFTAirdropManager.hasReceivedAirdrop, cacheGet, freshManager,
      NFTAirdropDatabase.hasReceivedAirdrop, hread, hserved]
  rcases hrec : NFTAirdropManager.hasReceivedAirdrop env.readFault
    (freshManager db) env.now recipient with ⟨b1, s1⟩
  rw [hrec] at hfst
  subst hfst
  have hs1db : s1.db = db := by
    have h3 := hasReceivedAirdrop_db_eq env.readFault (freshManager db)
      env.now recipient
    rw [hrec] at h3
    exact h3
  rcases hfmt : NFTAirdropManager.formatAirdropStatus env.renderDate
    env.fmtFault env.readFault env.histFault s1 env.now recipient
    with ⟨status, s2⟩
  have hs2db : s2.db = db := by
    have h4 := formatAirdropStatus_db_eq env.renderDate env.fmtFault
      env.readFault env.histFault s1 env.now recipient
    rw [hfmt] at h4
    rw [h4, hs1db]
  refine ⟨?_, ?_, ?_, ?_, ?_⟩
  · simp [sendNftHandler, hc, hrec, hfmt]
  · simp [sendNftHandler, hc, hrec, hfmt]
  · simp [sendNftHandler, hc, hrec, hfmt, hs2db]
  · simp [sendNftHandler, hc, hrec, hfmt]
  · intro sel ex
    simp [sendNftHandler, hc, hrec, hfmt]

/-- C4 witness: with a ledger already holding a record for the recipient, the
handler rejects without submitting, for a concrete environment. -/
theorem handler_already_served_frame_witness :
    (sendNftHandler ⟨[⟨"i1", addrB, addrA, "1", some "0xT", 1, "r", "a"⟩]⟩
      (some ⟨some addrA, some addrB⟩) envRecFail).ok = false ∧
    (sendNftHandler ⟨[⟨"i1", addrB, addrA, "1", some "0xT", 1, "r", "a"⟩]⟩
      (some ⟨some addrA, some addrB⟩) envRecFail).submitted = none :=
  ⟨(handler_already_served_frame
      ⟨[⟨"i1", addrB, addrA, "1", some "0xT", 1, "r", "a"⟩]⟩ addrA addrB
      envRecFail (by decide) (by decide) rfl (by decide)).1,
    (handler_already_served_frame
      ⟨[⟨"i1", addrB, addrA, "1", some "0xT", 1, "r", "a"⟩]⟩ addrA addrB
      envRecFail (by decide) (by decide) rfl (by decide)).2.1⟩

/-- C5: when asset selection or submission throws, the handler catches the
exception, returns `false`, leaves the ledger unchanged, reports
"Error transferring NFT: " followed by the underlying message (and that
message in the error field), and a later eligibility check through a fresh
manager over the resulting ledger still answers `false`, so the request can be
retried. -/
theorem handler_submission_error_no_record (db : DBState)
    (contractAddr recipient e : String) (env : HandlerEnv)
    (h1 : isValidAddress contractAddr = true)
    (h2 : isValidAddress recipient = true)
    (hread : env.readFault = false)
    (hnot : db.rows.any (fun r => r.recipientAddress == recipient) = false)
    (herr : env.selection = Except.error e ∨
      (∃ n, env.selection = Except.ok n ∧ env.execOut = Except.error e)) :
    (sendNftHandler db (some ⟨some contractAddr, some recipient⟩) env).ok
      = false ∧
    (sendNftHandler db (some ⟨some contractAddr, some recipient⟩) env).db
      = db ∧
    (sendNftHandler db (some ⟨some contractAddr, some recipient⟩) env).response
      = some ⟨"Error transferring NFT: " ++ e, some e⟩ ∧
    (∀ (t : Nat) (f2 : Bool),
      (NFTAirdropManager.hasReceivedAirdrop f2
        (freshManager (sendNftHandler db
          (some ⟨some contractAddr, some recipient⟩) env).db)
        t recipient).fst = false) := by
  have hc : isNFTTransferContent (some ⟨some contractAddr, some recipient⟩)
      = true := by
    simp [isNFTTransferContent, h1, h2]
  have hfst : (NFTAirdropManager.hasReceivedAirdrop env.readFault
      (freshManager db) env.now recipient).fst = false := by
    simp [NFTAirdropManager.hasReceivedAirdrop, cacheGet, freshManager,
      NFTAirdropDatabase.hasReceivedAirdrop, hread, hnot]
  rcases hrec : NFTAirdropManager.hasReceivedAirdrop env.readFault
    (freshManager db) env.now recipient with ⟨b1, s1⟩
  rw [hrec] at hfst
  subst hfst
  have hs1db : s1.db = db := by
    have h3 := hasReceivedAirdrop_db_eq env.readFault (freshManager db)
      env.now recipient
    rw [hrec] at h3
    exact h3
  have hlater : ∀ (t : Nat) (f2 : Bool),
      (NFTAirdropManager.hasReceivedAirdrop f2 (freshManager db)
        t recipient).fst = false := by
    intro t f2
    cases f2 <;>
      simp [NFTAirdropManager.hasReceivedAirdrop, cacheGet, freshManager,
        NFTAirdropDatabase.hasReceivedAirdrop, hnot]
  rcases herr with hsel | ⟨n, hsel, hexec⟩
  · refine ⟨?_, ?_, ?_, ?_⟩ <;>
      simp [sendNftHandler, hc, hrec, hsel, hs1db, hlater]
  · refine ⟨?_, ?_, ?_, ?_⟩ <;>
      simp [sendNftHandler, hc, hrec, hsel, hexec, hs1db, hlater]

/-- C5 witness: a selection error at a concrete input leaves the ledger empty
and the error message is surfaced. -/
theorem handler_submission_error_no_record_witness :
    (sendNftHandler ⟨[]⟩ (some ⟨some addrA, some addrB⟩)
      ⟨7, addrA, .error "network down", .ok "0xTX1", false, false, false,
        false, "rid", (fun n => toString n), "room", "agent"⟩).response
      = some ⟨"Error transferring NFT: " ++ "network down",
          some "network down"⟩ :=
  (handler_submission_error_no_record ⟨[]⟩ addrA addrB "network down"
    ⟨7, addrA, .error "network down", .ok "0xTX1", false, false, false,
      false, "rid", (fun n => toString n), "room", "agent"⟩
    (by decide) (by decide) rfl (by decide) (Or.inl rfl)).2.2.1

/-- C6: when selection yields the degenerate token id 0 and submission
succeeds, the handler logs "No NFTs found in the account" but does not abort:
it builds the transfer call with token id 0, submits it, and reports
success. -/
theorem handler_zero_token_proceeds (db : DBState)
    (contractAddr recipient txHash : String) (env : HandlerEnv)
    (h1 : isValidAddress contractAddr = true)
    (h2 : isValidAddress recipient = true)
    (hread : env.readFault = false)
    (hnot : db.rows.any (fun r => r.recipientAddress == recipient) = false)
    (hsel : env.selection = Except.ok 0)
    (hexec : env.execOut = Except.ok txHash) :
    (sendNftHandler db (some ⟨some contractAddr, some recipient⟩) env).logs
      = ["No NFTs found in the account"] ∧
    (sendNftHandler db (some ⟨some contractAddr, some recipient⟩) env).submitted
      = some ⟨contractAddr, env.accountAddress, recipient, 0⟩ ∧
    (sendNftHandler db (some ⟨some contractAddr, some recipient⟩) env).ok
      = true ∧
    (sendNftHandler db (some ⟨some contractAddr, some recipient⟩) env).response
      = some ⟨"NFT transfer completed successfully! tx: " ++ txHash, none⟩ := by
  have hc : isNFTTransferContent (some ⟨some contractAddr, some recipient⟩)
      = true := by
    simp [isNFTTransferContent, h1, h2]
  have hfst : (NFTAirdropManager.hasReceivedAirdrop env.readFault
      (freshManager db) env.now recipient).fst = false := by
    simp [NFTAirdropManager.hasReceivedAirdrop, cacheGet, freshManager,
      NFTAirdropDatabase.hasReceivedAirdrop, hread, hnot]
  rcases hrec : NFTAirdropManager.hasReceivedAirdrop env.readFault
    (freshManager db) env.now recipient with ⟨b1, s1⟩
  rw [hrec] at hfst
  subst hfst
  rcases hrec2 : NFTAirdropManager.recordAirdrop env.recFault env.recId
    env.now s1
    ⟨recipient, contractAddr, toString (0 : Nat), some txHash, env.roomId,
      env.agentId⟩ with ⟨b2, s2⟩
  refine ⟨?_, ?_, ?_, ?_⟩ <;>
    simp [sendNftHandler, hc, hrec, hsel, hexec, hrec2]

/-- C6 witness: at a concrete input with token id 0 the handler logs the
no-asset error yet still submits the degenerate transfer and reports
success. -/
theorem handler_zero_token_proceeds_witness :
    (sendNftHandler ⟨[]⟩ (some ⟨some addrA, some addrB⟩)
      ⟨7, addrA, .ok 0, .ok "0xTX1", false, false, false, false, "rid",
        (fun n => toString n), "room", "agent"⟩).logs
      = ["No NFTs found in the account"] ∧
    (sendNftHandler ⟨[]⟩ (some ⟨some addrA, some addrB⟩)
      ⟨7, addrA, .ok 0, .ok "0xTX1", false, false, false, false, "rid",
        (fun n => toString n), "room", "agent"⟩).submitted
      = some ⟨addrA, addrA, addrB, 0⟩ :=
  ⟨(handler_zero_token_proceeds ⟨[]⟩ addrA addrB "0xTX1"
      ⟨7, addrA, .ok 0, .ok "0xTX1", false, false, false, false, "rid",
        (fun n => toString n), "room", "agent"⟩
      (by decide) (by decide) rfl (by decide) rfl rfl).1,
    (handler_zero_token_proceeds ⟨[]⟩ addrA addrB "0xTX1"
      ⟨7, addrA, .ok 0, .ok "0xTX1", false, false, false, false, "rid",
        (fun n => toString n), "room", "agent"⟩
      (by decide) (by decide) rfl (by decide) rfl rfl).2.1⟩

/-- C10 witness: after a faulting cache-miss check at time 0, a check at time
299 against a store that does hold a record for the address still answers
`false`. -/
theorem storeReadError_caches_negative_witness :
    (NFTAirdropManager.hasReceivedAirdrop false
      { (NFTAirdropManager.hasReceivedAirdrop true (freshManager ⟨[]⟩) 0
          "0xA").snd
          with db := ⟨[⟨"i1", "0xA", "0xC", "1", some "0xT", 1, "r", "a"⟩]⟩ }
      299 "0xA").fst = false :=
  (storeReadError_caches_negative (freshManager ⟨[]⟩) 0 "0xA" rfl).2
    299 false ⟨[⟨"i1", "0xA", "0xC", "1", some "0xT", 1, "r", "a"⟩]⟩
    (by decide)
